import Mathlib

/-!
# Verification of the HyperLiquid MCP order-submission façade (src/server.py)

Shallow embedding of `src/server.py`. Python dictionaries are association
lists of `String × Json`, the upstream HyperLiquid SDK clients (`hl_info`,
`hl_exchange`) are modelled as inputs: every upstream call's outcome is
passed in as an `Except String Json` value, where `.error e` stands for the
SDK call raising an exception whose `str()` is `e`. Each tool returns its
result together with the list of upstream calls it performed, so that
"zero upstream calls" is a statement about the trace.
-/

namespace HL

/-- Python values as seen through the JSON-ish dictionaries the SDK returns:
`null` is Python `None`, `obj` a dict, `arr` a list, numbers are modelled
as exact rationals. -/
inductive Json where
  | null : Json
  | bool : Bool → Json
  | num : ℚ → Json
  | str : String → Json
  | arr : List Json → Json
  | obj : List (String × Json) → Json

/-- Lookup in a Python dict (association list, first binding wins). -/
def dictGet (d : List (String × Json)) (k : String) : Option Json :=
  (d.find? (fun p => p.1 == k)).map Prod.snd

/-- Python `x.get(k, default)`: raises `AttributeError` when `x` is not a
dict. -/
def pyGet (j : Json) (k : String) (dflt : Json) : Except String Json :=
  match j with
  | .obj d => .ok ((dictGet d k).getD dflt)
  | _ => .error "AttributeError"

/-- Python `xs[0]`: `IndexError` on an empty list, `TypeError` when not
subscriptable by an integer. -/
def pyIndex0 (j : Json) : Except String Json :=
  match j with
  | .arr (x :: _) => .ok x
  | .arr [] => .error "list index out of range"
  | _ => .error "TypeError"

/-- Python truthiness of a value. -/
def pyTruthy (j : Json) : Bool :=
  match j with
  | .null => false
  | .bool b => b
  | .num q => q != 0
  | .str s => s != ""
  | .arr l => !l.isEmpty
  | .obj d => !d.isEmpty

/-- Python iteration: lists yield elements, dicts yield their keys,
strings their characters; other values raise `TypeError`. -/
def pyIter (j : Json) : Except String (List Json) :=
  match j with
  | .arr l => .ok l
  | .obj d => .ok (d.map (fun p => Json.str p.1))
  | .str s => .ok (s.toList.map (fun c => Json.str (String.singleton c)))
  | _ => .error "TypeError"

/-- Value of a list of decimal digit characters. -/
def digitsVal (cs : List Char) : Nat :=
  cs.foldl (fun a c => a * 10 + (c.toNat - 48)) 0

/-- Models Python `float(s)` on a string for simple decimal literals
`[+-]?digits[.digits]?` / `[+-]?.digits`; exponent, infinity and
whitespace forms are outside the modelled fragment and fail. -/
def parseFloat? (s : String) : Option ℚ :=
  let cs := s.toList
  let signed : ℚ × List Char :=
    match cs with
    | '-' :: rest => (-1, rest)
    | '+' :: rest => (1, rest)
    | _ => (1, cs)
  let sign := signed.1
  let body := signed.2
  let intPart := body.takeWhile Char.isDigit
  let rest := body.dropWhile Char.isDigit
  match rest with
  | [] => if intPart.isEmpty then none else some (sign * (digitsVal intPart : ℚ))
  | '.' :: frac =>
    if frac.all Char.isDigit && !(intPart.isEmpty && frac.isEmpty) then
      some (sign * ((digitsVal intPart : ℚ) + (digitsVal frac : ℚ) / (10 ^ frac.length)))
    else none
  | _ => none

/-- Python `float(x)`: numbers pass through, booleans become 0/1, strings
are parsed (`ValueError` on failure), everything else raises `TypeError`. -/
def pyFloat (j : Json) : Except String ℚ :=
  match j with
  | .num q => .ok q
  | .bool b => .ok (if b then 1 else 0)
  | .str s =>
    match parseFloat? s with
    | some q => .ok q
    | none => .error "ValueError"
  | _ => .error "TypeError"

/-- Python `s.upper()`: uppercase each character (`String.toUpper` is
definitionally opaque, so the character list is mapped directly). -/
def pyUpper (s : String) : String := String.mk (s.toList.map Char.toUpper)

/-- Naive substring test, used for Python `needle in haystackString`. -/
def strContains (s pat : String) : Bool :=
  (List.range (s.length + 1)).any (fun i => pat.isPrefixOf (s.drop i))

/-- The upstream calls a tool can perform, in the order the source makes
them. -/
inductive UpCall where
  | allMids : UpCall
  | userState : String → UpCall
  | openOrders : String → UpCall
  | meta : UpCall
  | order : String → Bool → ℚ → ℚ → Json → Bool → UpCall
  | cancelAll : UpCall
  | cancel : String → Int → UpCall

/-- Process-lifetime state fixed at startup: whether the private key was
valid (`is_key_valid`) and whether the `Exchange` client was successfully
constructed (`hl_exchange` is not `None`). -/
structure ServerState where
  is_key_valid : Bool
  hl_exchange : Bool

/-- `get_mid_price` (src/server.py lines 117-139). The `hl_info.all_mids()`
call sits outside any `try`, so an SDK exception propagates out of the
tool; a non-dict payload yields `-1.0`; an absent (or `None`) entry yields
`0.0`; an entry `float()` cannot convert yields `-2.0` (the
`ValueError`/`TypeError` from the conversion is the only thing caught). -/
def get_mid_price (allMids : Except String Json) (coin : String) :
    Except String ℚ × List UpCall :=
  (match allMids with
  | .error e => .error e
  | .ok midsDict =>
    match midsDict with
    | .obj d =>
      match (dictGet d (pyUpper coin)).getD Json.null with
      | .null => .ok 0
      | v =>
        match pyFloat v with
        | .ok q => .ok q
        | .error _ => .ok (-2)
    | _ => .ok (-1), [UpCall.allMids])

/-- `get_user_state` (src/server.py lines 103-114): no `try`/`except` at
all, the upstream response (or exception) is returned as-is. -/
def get_user_state (resp : Except String Json) (address : String) :
    Except String Json × List UpCall :=
  (resp, [UpCall.userState address])

/-- `result.get('response', {}).get('data', {}).get('statuses', [{}])[0]`,
the shared first-status extraction of the order/cancel tools. -/
def firstStatus (result : Json) : Except String Json := do
  let resp ← pyGet result "response" (Json.obj [])
  let data ← pyGet resp "data" (Json.obj [])
  let statuses ← pyGet data "statuses" (Json.arr [Json.obj []])
  pyIndex0 statuses

/-- `if 'error' in status_data: ... status_data['error']`: returns
`some v` when the membership test succeeds and the subscript yields `v`,
`none` when the membership test is false, and an exception otherwise
(Python `in` on a string is a substring test and on a list a membership
test, but the subsequent string subscript `['error']` raises `TypeError`;
`in` on a number or `None` raises `TypeError` directly). -/
def getErrorField (status_data : Json) : Except String (Option Json) :=
  match status_data with
  | .obj d => .ok (dictGet d "error")
  | .str s => if strContains s "error" then .error "TypeError" else .ok none
  | .arr l =>
    if l.any (fun x => match x with | .str s => s == "error" | _ => false) then
      .error "TypeError"
    else .ok none
  | _ => .error "TypeError"

/-- Models Python `str()` of a numeric value; exact float formatting is
not reproduced, only that some deterministic rendering is interpolated. -/
def pyStr (q : ℚ) : String := toString q

/-- The disabled-trading payload every write tool returns when the key is
invalid or the Exchange client is `None`. -/
def tradingDisabled : Json :=
  Json.obj [("error", Json.str "Trading is disabled. Private key is invalid or Exchange client failed to initialize.")]

/-- The failure payload returned when the mid price is not positive. -/
def noMarketPrice : Json :=
  Json.obj [("error", Json.str "Could not retrieve valid market price to use for the order.")]

/-- `{"status": "failed", "exchange_error": err}`. -/
def failedPayload (err : Json) : Json :=
  Json.obj [("status", Json.str "failed"), ("exchange_error", err)]

/-- Input model for `place_market_order` (pydantic `MarketOrderInput`). -/
structure MarketOrderInput where
  coin : String
  is_buy : Bool
  size : ℚ
  reduce_only : Bool

/-- Input model for `place_limit_order` (pydantic `LimitOrderInput`). -/
structure LimitOrderInput where
  coin : String
  is_buy : Bool
  size : ℚ
  limit_price : ℚ
  time_in_force : String
  reduce_only : Bool

/-- Input model for `cancel_order_by_id` (pydantic `CancelOrderInput`). -/
structure CancelOrderInput where
  coin : String
  order_id : Int

/-- Response interpretation of `place_market_order` (src/server.py lines
262-273), inside the `try`. -/
def pmo_interpret (o : MarketOrderInput) (result : Json) : Except String Json := do
  let status_data ← firstStatus result
  match ← getErrorField status_data with
  | some err => pure (failedPayload err)
  | none => do
    let resp ← pyGet result "response" (Json.obj [])
    let hash ← pyGet resp "hash" Json.null
    pure (Json.obj
      [("status", Json.str "success"),
       ("message", Json.str ("Market order placed on " ++ o.coin ++ ".")),
       ("side", Json.str (if o.is_buy then "BUY" else "SELL")),
       ("size", Json.num o.size),
       ("tx_hash", hash)])

/-- `place_market_order` (src/server.py lines 235-277). `allMids` is the
outcome of the `hl_info.all_mids()` call made inside the nested
`get_mid_price`, `orderResp` the outcome of `hl_exchange.order(...)`. -/
def place_market_order (st : ServerState) (allMids orderResp : Except String Json)
    (o : MarketOrderInput) : Json × List UpCall :=
  if !st.is_key_valid || !st.hl_exchange then (tradingDisabled, [])
  else
    match (get_mid_price allMids o.coin).1 with
    | .error e => (Json.obj [("error", Json.str ("Failed to place order: " ++ e))], [UpCall.allMids])
    | .ok mid_price =>
      if mid_price ≤ 0 then (noMarketPrice, [UpCall.allMids])
      else
        let limit_px := mid_price * (if o.is_buy then 105/100 else 95/100)
        let call := UpCall.order (pyUpper o.coin) o.is_buy o.size limit_px
          (Json.obj [("market", Json.bool true)]) o.reduce_only
        match (do pmo_interpret o (← orderResp) : Except String Json) with
        | .ok j => (j, [UpCall.allMids, call])
        | .error e =>
          (Json.obj [("error", Json.str ("Failed to place order: " ++ e))], [UpCall.allMids, call])

/-- Response interpretation of `place_limit_order` (src/server.py lines
300-313), inside the `try`. -/
def plo_interpret (o : LimitOrderInput) (result : Json) : Except String Json := do
  let status_data ← firstStatus result
  match ← getErrorField status_data with
  | some err => pure (failedPayload err)
  | none => do
    let resting ← pyGet status_data "resting" (Json.obj [])
    let order_id ← pyGet resting "oid" Json.null
    let resp ← pyGet result "response" (Json.obj [])
    let hash ← pyGet resp "hash" Json.null
    pure (Json.obj
      [("status", Json.str "success"),
       ("message", Json.str ("Limit order placed for " ++ pyStr o.size ++ " " ++ o.coin ++
         " at " ++ pyStr o.limit_price ++ " with TIF: " ++ o.time_in_force ++ ".")),
       ("side", Json.str (if o.is_buy then "BUY" else "SELL")),
       ("order_id", order_id),
       ("tx_hash", hash)])

/-- `place_limit_order` (src/server.py lines 280-317): no validation in
the body beyond the key guard; submits exactly the given price and
time-in-force. -/
def place_limit_order (st : ServerState) (orderResp : Except String Json)
    (o : LimitOrderInput) : Json × List UpCall :=
  if !st.is_key_valid || !st.hl_exchange then (tradingDisabled, [])
  else
    let call := UpCall.order (pyUpper o.coin) o.is_buy o.size o.limit_price
      (Json.obj [("limit", Json.obj [("tif", Json.str o.time_in_force)])]) o.reduce_only
    match (do plo_interpret o (← orderResp) : Except String Json) with
    | .ok j => (j, [call])
    | .error e =>
      (Json.obj [("error", Json.str ("Failed to place limit order: " ++ e))], [call])

/-- Response interpretation of `cancel_all_orders` (src/server.py lines
332-344): only the transaction hash is inspected, never the statuses. -/
def cao_interpret (result : Json) : Except String Json := do
  let resp ← pyGet result "response" (Json.obj [])
  let tx_hash ← pyGet resp "hash" Json.null
  if pyTruthy tx_hash then
    pure (Json.obj
      [("status", Json.str "success"),
       ("message", Json.str "All open orders successfully submitted for cancellation."),
       ("tx_hash", tx_hash)])
  else
    pure (Json.obj
      [("status", Json.str "warning"),
       ("message", Json.str "Cancellation request submitted, but no immediate transaction hash was returned (may mean no open orders found).")])

/-- `cancel_all_orders` (src/server.py lines 320-348). -/
def cancel_all_orders (st : ServerState) (cancelResp : Except String Json) :
    Json × List UpCall :=
  if !st.is_key_valid || !st.hl_exchange then (tradingDisabled, [])
  else
    match (do cao_interpret (← cancelResp) : Except String Json) with
    | .ok j => (j, [UpCall.cancelAll])
    | .error e =>
      (Json.obj [("error", Json.str ("Failed to execute cancel_all: " ++ e))], [UpCall.cancelAll])

/-- Response interpretation of `cancel_order_by_id` (src/server.py lines
366-377): the hash is read before the status list is indexed. -/
def cobi_interpret (ci : CancelOrderInput) (result : Json) : Except String Json := do
  let resp ← pyGet result "response" (Json.obj [])
  let tx_hash ← pyGet resp "hash" Json.null
  let status_data ← firstStatus result
  match ← getErrorField status_data with
  | some err => pure (failedPayload err)
  | none =>
    pure (Json.obj
      [("status", Json.str "success"),
       ("message", Json.str ("Cancellation request submitted for Order ID " ++
         toString ci.order_id ++ " on " ++ ci.coin ++ ".")),
       ("order_id", Json.num (ci.order_id : ℚ)),
       ("tx_hash", tx_hash)])

/-- `cancel_order_by_id` (src/server.py lines 351-381). -/
def cancel_order_by_id (st : ServerState) (cancelResp : Except String Json)
    (ci : CancelOrderInput) : Json × List UpCall :=
  if !st.is_key_valid || !st.hl_exchange then (tradingDisabled, [])
  else
    match (do cobi_interpret ci (← cancelResp) : Except String Json) with
    | .ok j => (j, [UpCall.cancel (pyUpper ci.coin) ci.order_id])
    | .error e =>
      (Json.obj [("error", Json.str ("Failed to cancel order " ++ toString ci.order_id ++ ": " ++ e))],
       [UpCall.cancel (pyUpper ci.coin) ci.order_id])

/-- Body of `get_order_book` (src/server.py lines 149-166), inside the
`try`. -/
def gob_interpret (coin : String) (mids_dict : Json) : Except String Json := do
  let coin_symbol := pyUpper coin
  let price_str ← pyGet mids_dict coin_symbol Json.null
  match price_str with
  | .null =>
    pure (Json.obj [("error", Json.str ("Coin " ++ coin_symbol ++ " not found in current market data."))])
  | v => do
    let price ← pyFloat v
    pure (Json.obj
      [("coin", Json.str coin_symbol),
       ("mid_price", Json.num price),
       ("bids", Json.arr [Json.obj [("price", Json.num (price * (9999/10000))), ("size", Json.num 1)]]),
       ("asks", Json.arr [Json.obj [("price", Json.num (price * (10001/10000))), ("size", Json.num 1)]]),
       ("note", Json.str "⚠️ Data is simplified. Full L2 depth is unavailable in this SDK version or client.")])

/-- `get_order_book` (src/server.py lines 142-169): everything, the
upstream call included, is inside the `try`. -/
def get_order_book (allMids : Except String Json) (coin : String) :
    Json × List UpCall :=
  match (do gob_interpret coin (← allMids) : Except String Json) with
  | .ok j => (j, [UpCall.allMids])
  | .error e =>
    (Json.obj [("error", Json.str ("Failed to retrieve price data for " ++ coin ++ ": " ++ e))],
     [UpCall.allMids])

/-- One entry of the simplified order list built by `get_open_orders`
(src/server.py lines 186-194). -/
def cleanOrder (order : Json) : Except String Json := do
  let coin ← pyGet order "coin" Json.null
  let oid ← pyGet order "oid" Json.null
  let side ← pyGet order "side" Json.null
  let limitPx ← pyGet order "limitPx" Json.null
  let sz ← pyGet order "sz" Json.null
  let ts ← pyGet order "timestamp" Json.null
  let lp ← pyFloat limitPx
  let szq ← pyFloat sz
  pure (Json.obj
    [("coin", coin),
     ("order_id", oid),
     ("side", Json.str (match side with | .str "B" => "BUY" | _ => "SELL")),
     ("limit_price", Json.num lp),
     ("size", Json.num szq),
     ("timestamp_ms", ts)])

/-- Body of `get_open_orders` (src/server.py lines 179-200), inside the
`try`. -/
def goo_interpret (orders : Json) : Except String Json := do
  if !pyTruthy orders then
    pure (Json.obj
      [("status", Json.str "success"),
       ("message", Json.str "No open orders found."),
       ("orders", Json.arr [])])
  else do
    let items ← pyIter orders
    let clean_orders ← items.mapM cleanOrder
    pure (Json.obj
      [("status", Json.str "success"),
       ("message", Json.str ("Found " ++ toString clean_orders.length ++ " open orders.")),
       ("orders", Json.arr clean_orders)])

/-- `get_open_orders` (src/server.py lines 172-204). -/
def get_open_orders (openOrdersResp : Except String Json) (address : String) :
    Json × List UpCall :=
  match (do goo_interpret (← openOrdersResp) : Except String Json) with
  | .ok j => (j, [UpCall.openOrders address])
  | .error e =>
    (Json.obj [("error", Json.str ("Failed to retrieve open orders: " ++ e))],
     [UpCall.openOrders address])

/-- One step of the perpetuals list comprehension (src/server.py lines
216-220): the filter `asset.get('type') == 'perp'` runs first, then the
subscript `asset['name']` (`KeyError` when absent). -/
def perpName (asset : Json) : Except String (Option Json) := do
  let t ← pyGet asset "type" Json.null
  match t with
  | .str "perp" =>
    match asset with
    | .obj d =>
      match dictGet d "name" with
      | some v => pure (some v)
      | none => .error "KeyError"
    | _ => .error "TypeError"
  | _ => pure none

/-- Body of `get_all_perpetual_markets` (src/server.py lines 214-226),
inside the `try`. -/
def gapm_interpret (metadata : Json) : Except String Json := do
  let universeField ← pyGet metadata "universe" (Json.arr [])
  let items ← pyIter universeField
  let opts ← items.mapM perpName
  let perpetuals := opts.filterMap id
  pure (Json.obj
    [("status", Json.str "success"),
     ("message", Json.str ("Retrieved " ++ toString perpetuals.length ++ " perpetual contracts.")),
     ("perpetual_contracts", Json.arr perpetuals)])

/-- `get_all_perpetual_markets` (src/server.py lines 207-230). -/
def get_all_perpetual_markets (metaResp : Except String Json) :
    Json × List UpCall :=
  match (do gapm_interpret (← metaResp) : Except String Json) with
  | .ok j => (j, [UpCall.meta])
  | .error e =>
    (Json.obj [("error", Json.str ("Failed to retrieve market list: " ++ e))], [UpCall.meta])

/-- The pydantic constraints on `LimitOrderInput` (src/server.py lines
70-77): `size` and `limit_price` carry `gt=0` and `time_in_force` is the
literal set `Gtc | Ioc | Alo`. -/
def LimitOrderInput.isValid (o : LimitOrderInput) : Bool :=
  decide (0 < o.size) && decide (0 < o.limit_price) &&
    (o.time_in_force == "Gtc" || o.time_in_force == "Ioc" || o.time_in_force == "Alo")

/-- The tool surface: FastMCP validates the pydantic input model before
the `place_limit_order` body runs; a constraint violation is reported to
the client as a validation error and the handler is never entered, so no
upstream call happens. -/
def place_limit_order_tool (st : ServerState) (orderResp : Except String Json)
    (o : LimitOrderInput) : Except String Json × List UpCall :=
  if o.isValid then
    let r := place_limit_order st orderResp o
    (.ok r.1, r.2)
  else (.error "ValidationError", [])

/-! ## Claim theorems -/

/-- C1: with a valid signing identity, whenever `get_mid_price` yields a
positive mid price, `place_market_order` submits exactly one order
upstream, at limit price `mid × 1.05` for a buy and `mid × 0.95` for a
sell, tagged with the market-intent order type `{"market": True}`. -/
theorem market_order_price_offset (st : ServerState)
    (hk : st.is_key_valid = true) (hx : st.hl_exchange = true)
    (allMids orderResp : Except String Json) (o : MarketOrderInput) (mid : ℚ)
    (hmid : (get_mid_price allMids o.coin).1 = .ok mid) (hpos : 0 < mid) :
    (place_market_order st allMids orderResp o).2 =
      [UpCall.allMids,
       UpCall.order (pyUpper o.coin) o.is_buy o.size
         (mid * (if o.is_buy then 105/100 else 95/100))
         (Json.obj [("market", Json.bool true)]) o.reduce_only] := by
  unfold place_market_order
  rw [hk, hx, hmid]
  simp only [Bool.not_true, Bool.or_self, Bool.false_eq_true, if_false,
    if_neg (not_le.mpr hpos)]
  split <;> rfl

/-- C1 witness. -/
theorem market_order_price_offset_witness :
    (place_market_order ⟨true, true⟩ (.ok (Json.obj [("BTC", Json.num 100)]))
        (.ok Json.null) ⟨"btc", true, 2, false⟩).2 =
      [UpCall.allMids,
       UpCall.order "BTC" true 2 (100 * (105/100))
         (Json.obj [("market", Json.bool true)]) false] :=
  market_order_price_offset ⟨true, true⟩ rfl rfl
    (.ok (Json.obj [("BTC", Json.num 100)])) (.ok Json.null)
    ⟨"btc", true, 2, false⟩ 100 rfl (by decide)

/-- C2: with the signing identity absent or invalid (`is_key_valid` is
false), all four write tools return the disabled-trading error payload and
perform zero upstream calls, whatever the upstream would have answered. -/
theorem write_tools_disabled (st : ServerState) (h : st.is_key_valid = false)
    (am r1 r2 r3 r4 : Except String Json) (mo : MarketOrderInput)
    (lo : LimitOrderInput) (ci : CancelOrderInput) :
    place_market_order st am r1 mo = (tradingDisabled, []) ∧
    place_limit_order st r2 lo = (tradingDisabled, []) ∧
    cancel_all_orders st r3 = (tradingDisabled, []) ∧
    cancel_order_by_id st r4 ci = (tradingDisabled, []) := by
  refine ⟨?_, ?_, ?_, ?_⟩ <;>
    simp [place_market_order, place_limit_order, cancel_all_orders,
      cancel_order_by_id, h]

/-- C2 witness. -/
theorem write_tools_disabled_witness :
    place_market_order ⟨false, false⟩ (.ok Json.null) (.ok Json.null)
        ⟨"BTC", true, 1, false⟩ = (tradingDisabled, []) ∧
    place_limit_order ⟨false, false⟩ (.ok Json.null)
        ⟨"BTC", true, 1, 10, "Gtc", false⟩ = (tradingDisabled, []) ∧
    cancel_all_orders ⟨false, false⟩ (.ok Json.null) = (tradingDisabled, []) ∧
    cancel_order_by_id ⟨false, false⟩ (.ok Json.null) ⟨"BTC", 5⟩ =
      (tradingDisabled, []) :=
  write_tools_disabled ⟨false, false⟩ rfl (.ok Json.null) (.ok Json.null)
    (.ok Json.null) (.ok Json.null) (.ok Json.null) ⟨"BTC", true, 1, false⟩
    ⟨"BTC", true, 1, 10, "Gtc", false⟩ ⟨"BTC", 5⟩

/-- C5: on a successful upstream reply, `get_mid_price` returns `-1.0`
(without raising) for any non-dict payload, `-2.0` (without raising) for a
dict entry that `float()` cannot convert, and the two sentinels are
distinct negative values. -/
theorem get_mid_price_sentinels (coin : String) (j : Json)
    (hns : ∀ d, j ≠ Json.obj d) (d : List (String × Json)) (v : Json)
    (hv : (dictGet d (pyUpper coin)).getD Json.null = v)
    (hnn : v ≠ Json.null) (e : String) (hpf : pyFloat v = .error e) :
    (get_mid_price (.ok j) coin).1 = .ok (-1) ∧
    (get_mid_price (.ok (Json.obj d)) coin).1 = .ok (-2) ∧
    (-1 : ℚ) ≠ -2 ∧ (-1 : ℚ) < 0 ∧ (-2 : ℚ) < 0 := by
  refine ⟨?_, ?_, by norm_num, by norm_num, by norm_num⟩
  · cases j with
    | obj d => exact absurd rfl (hns d)
    | _ => rfl
  · simp only [get_mid_price]
    rw [hv]
    cases v with
    | null => exact absurd rfl hnn
    | _ => simp [hpf]

/-- C5 witness. -/
theorem get_mid_price_sentinels_witness :
    (get_mid_price (.ok (Json.arr [])) "btc").1 = .ok (-1) ∧
    (get_mid_price (.ok (Json.obj [("BTC", Json.str "n/a")])) "btc").1 = .ok (-2) ∧
    (-1 : ℚ) ≠ -2 ∧ (-1 : ℚ) < 0 ∧ (-2 : ℚ) < 0 :=
  get_mid_price_sentinels "btc" (Json.arr []) (fun d h => by cases h)
    [("BTC", Json.str "n/a")] (Json.str "n/a") rfl (fun h => by cases h)
    "ValueError" rfl

/-- C6: when the uppercased symbol is absent from a dict-shaped mid-price
map, `get_mid_price` returns exactly `0`. -/
theorem get_mid_price_absent (coin : String) (d : List (String × Json))
    (h : dictGet d (pyUpper coin) = none) :
    (get_mid_price (.ok (Json.obj d)) coin).1 = .ok 0 := by
  simp only [get_mid_price]
  rw [h]
  rfl

/-- C6 witness. -/
theorem get_mid_price_absent_witness :
    (get_mid_price (.ok (Json.obj [("ETH", Json.num 3000)])) "btc").1 = .ok 0 :=
  get_mid_price_absent "btc" [("ETH", Json.num 3000)] rfl

/-- C7: with a valid identity, when the retrieved mid price is not
strictly positive (the zero not-found value and the negative sentinels
included), `place_market_order` returns the no-market-price failure and
its trace consists of the price lookup alone: no order is submitted. -/
theorem market_order_requires_price (st : ServerState)
    (hk : st.is_key_valid = true) (hx : st.hl_exchange = true)
    (allMids orderResp : Except String Json) (o : MarketOrderInput) (mid : ℚ)
    (hmid : (get_mid_price allMids o.coin).1 = .ok mid) (hnp : mid ≤ 0) :
    place_market_order st allMids orderResp o = (noMarketPrice, [UpCall.allMids]) := by
  unfold place_market_order
  rw [hk, hx, hmid]
  simp only [Bool.not_true, Bool.or_self, Bool.false_eq_true, if_false,
    if_pos hnp]

/-- C7 witness: the zero "symbol not found" value. -/
theorem market_order_requires_price_witness :
    place_market_order ⟨true, true⟩ (.ok (Json.obj [])) (.ok Json.null)
        ⟨"BTC", true, 1, false⟩ = (noMarketPrice, [UpCall.allMids]) :=
  market_order_requires_price ⟨true, true⟩ rfl rfl (.ok (Json.obj []))
    (.ok Json.null) ⟨"BTC", true, 1, false⟩ 0 rfl (by decide)

/-- C8: with a valid identity, a `cancel_all_orders` upstream reply that
succeeds but carries no transaction hash yields a payload whose `status`
is `warning` and which has no `error` field. -/
theorem cancel_all_no_hash_warning (st : ServerState)
    (hk : st.is_key_valid = true) (hx : st.hl_exchange = true)
    (result r : Json) (hr : pyGet result "response" (Json.obj []) = .ok r)
    (hh : pyGet r "hash" Json.null = .ok Json.null) :
    ∃ fields, (cancel_all_orders st (.ok result)).1 = Json.obj fields ∧
      dictGet fields "status" = some (Json.str "warning") ∧
      dictGet fields "error" = none := by
  refine ⟨[("status", Json.str "warning"),
    ("message", Json.str "Cancellation request submitted, but no immediate transaction hash was returned (may mean no open orders found).")],
    ?_, rfl, rfl⟩
  unfold cancel_all_orders cao_interpret
  rw [hk, hx]
  simp only [Bool.not_true, Bool.or_self, Bool.false_eq_true, if_false]
  simp [Bind.bind, Except.bind, pure, Except.pure, hr, hh, pyTruthy]

/-- C8 witness. -/
theorem cancel_all_no_hash_warning_witness :
    ∃ fields,
      (cancel_all_orders ⟨true, true⟩ (.ok (Json.obj [("status", Json.str "ok")]))).1 =
        Json.obj fields ∧
      dictGet fields "status" = some (Json.str "warning") ∧
      dictGet fields "error" = none :=
  cancel_all_no_hash_warning ⟨true, true⟩ rfl rfl
    (Json.obj [("status", Json.str "ok")]) (Json.obj []) rfl rfl

/-- C9: a limit-order request whose size or limit price is not strictly
positive fails the pydantic `gt=0` validation at the tool surface: the
handler body never runs and no upstream call is made. -/
theorem limit_order_nonpositive_rejected (st : ServerState)
    (orderResp : Except String Json) (o : LimitOrderInput)
    (h : o.size ≤ 0 ∨ o.limit_price ≤ 0) :
    place_limit_order_tool st orderResp o = (.error "ValidationError", []) := by
  unfold place_limit_order_tool LimitOrderInput.isValid
  rcases h with h | h
  · simp [not_lt.mpr h]
  · simp [not_lt.mpr h]

/-- C9 witness: size 0 and limit price 0. -/
theorem limit_order_nonpositive_rejected_witness :
    place_limit_order_tool ⟨true, true⟩ (.ok Json.null)
        ⟨"BTC", true, 0, 0, "Gtc", false⟩ = (.error "ValidationError", []) :=
  limit_order_nonpositive_rejected ⟨true, true⟩ (.ok Json.null)
    ⟨"BTC", true, 0, 0, "Gtc", false⟩ (Or.inl (by decide))

/-- When the first-status extraction succeeds, the response field of the
result is itself a dict (so the later `hash` lookup cannot raise). -/
theorem firstStatus_ok_response {result sd : Json}
    (h : firstStatus result = .ok sd) :
    ∃ rl, pyGet result "response" (Json.obj []) = .ok (Json.obj rl) := by
  unfold firstStatus at h
  cases hresp : pyGet result "response" (Json.obj []) with
  | error e => rw [hresp] at h; simp [Bind.bind, Except.bind] at h
  | ok resp =>
    rw [hresp] at h
    simp only [Bind.bind, Except.bind] at h
    cases hdata : pyGet resp "data" (Json.obj []) with
    | error e => rw [hdata] at h; simp at h
    | ok data =>
      cases resp with
      | obj rl => exact ⟨rl, rfl⟩
      | _ => simp [pyGet] at hdata

/-- C3 counterexample: `cancel_all_orders` never inspects the embedded
status list. On an upstream reply whose first status entry carries
`error: "Insufficient margin"` but which has no hash, it returns the
warning payload instead of `{status: failed, exchange_error:
"Insufficient margin"}`. -/
theorem cancel_all_ignores_status_error :
    (cancel_all_orders ⟨true, true⟩ (.ok (Json.obj [("response", Json.obj
        [("data", Json.obj [("statuses", Json.arr [Json.obj
          [("error", Json.str "Insufficient margin")]])])])]))).1 =
      Json.obj [("status", Json.str "warning"),
        ("message", Json.str "Cancellation request submitted, but no immediate transaction hash was returned (may mean no open orders found).")] ∧
    (cancel_all_orders ⟨true, true⟩ (.ok (Json.obj [("response", Json.obj
        [("data", Json.obj [("statuses", Json.arr [Json.obj
          [("error", Json.str "Insufficient margin")]])])])]))).1 ≠
      failedPayload (Json.str "Insufficient margin") := by
  refine ⟨rfl, ?_⟩
  intro h
  have hs : "warning" = "failed" := congrArg
    (fun j => match j with | Json.obj (("status", Json.str s) :: _) => s | _ => "") h
  exact absurd hs (by decide)

/-- C3 (amended): the three order/cancel tools that do inspect the status
list (`place_market_order`, `place_limit_order`, `cancel_order_by_id`)
return `{status: failed, exchange_error: err}` with the upstream error
surfaced verbatim whenever the first status entry carries an error field;
`cancel_all_orders` is the exception and only looks at the hash. -/
theorem order_tools_surface_exchange_error (st : ServerState)
    (hk : st.is_key_valid = true) (hx : st.hl_exchange = true)
    (allMids : Except String Json) (mo : MarketOrderInput)
    (lo : LimitOrderInput) (ci : CancelOrderInput) (mid : ℚ)
    (hmid : (get_mid_price allMids mo.coin).1 = .ok mid) (hpos : 0 < mid)
    (result sd err : Json) (hsd : firstStatus result = .ok sd)
    (herr : getErrorField sd = .ok (some err)) :
    (place_market_order st allMids (.ok result) mo).1 = failedPayload err ∧
    (place_limit_order st (.ok result) lo).1 = failedPayload err ∧
    (cancel_order_by_id st (.ok result) ci).1 = failedPayload err := by
  obtain ⟨rl, hresp⟩ := firstStatus_ok_response hsd
  refine ⟨?_, ?_, ?_⟩
  · unfold place_market_order pmo_interpret
    rw [hk, hx, hmid]
    simp [Bind.bind, Except.bind, pure, Except.pure,
      if_neg (not_le.mpr hpos), hsd, herr]
  · unfold place_limit_order plo_interpret
    rw [hk, hx]
    simp [Bind.bind, Except.bind, pure, Except.pure, hsd, herr]
  · have hhash : pyGet (Json.obj rl) "hash" Json.null =
        .ok ((dictGet rl "hash").getD Json.null) := rfl
    unfold cancel_order_by_id cobi_interpret
    rw [hk, hx]
    simp [Bind.bind, Except.bind, pure, Except.pure, hresp, hhash, hsd, herr]

/-- C3 (amended) witness. -/
theorem order_tools_surface_exchange_error_witness :
    (place_market_order ⟨true, true⟩ (.ok (Json.obj [("BTC", Json.num 100)]))
      (.ok (Json.obj [("response", Json.obj [("data", Json.obj [("statuses",
        Json.arr [Json.obj [("error", Json.str "Insufficient margin")]])])])]))
      ⟨"BTC", true, 1, false⟩).1 = failedPayload (Json.str "Insufficient margin") ∧
    (place_limit_order ⟨true, true⟩
      (.ok (Json.obj [("response", Json.obj [("data", Json.obj [("statuses",
        Json.arr [Json.obj [("error", Json.str "Insufficient margin")]])])])]))
      ⟨"BTC", true, 1, 10, "Gtc", false⟩).1 = failedPayload (Json.str "Insufficient margin") ∧
    (cancel_order_by_id ⟨true, true⟩
      (.ok (Json.obj [("response", Json.obj [("data", Json.obj [("statuses",
        Json.arr [Json.obj [("error", Json.str "Insufficient margin")]])])])]))
      ⟨"BTC", 5⟩).1 = failedPayload (Json.str "Insufficient margin") :=
  order_tools_surface_exchange_error ⟨true, true⟩ rfl rfl
    (.ok (Json.obj [("BTC", Json.num 100)])) ⟨"BTC", true, 1, false⟩
    ⟨"BTC", true, 1, 10, "Gtc", false⟩ ⟨"BTC", 5⟩ 100 rfl (by decide)
    (Json.obj [("response", Json.obj [("data", Json.obj [("statuses",
      Json.arr [Json.obj [("error", Json.str "Insufficient margin")]])])])])
    (Json.obj [("error", Json.str "Insufficient margin")])
    (Json.str "Insufficient margin") rfl rfl

/-- C4 counterexample: `get_user_state` has no exception handler at all
and `get_mid_price` makes its upstream call outside its `try`; both hand
the raw upstream fault back instead of an `{error: message}` payload. -/
theorem read_tools_propagate_faults :
    (get_user_state (.error "ConnectionError") "0xDEAD").1 = .error "ConnectionError" ∧
    (get_mid_price (.error "ConnectionError") "BTC").1 = .error "ConnectionError" ∧
    (Except.error "ConnectionError" : Except String Json) ≠
      .ok (Json.obj [("error", Json.str "ConnectionError")]) :=
  ⟨rfl, rfl, by simp⟩

/-- C4 (amended): every tool except `get_user_state` and `get_mid_price`
catches an upstream exception and degrades to a structured
`{error: message}` payload; those two propagate the raw fault. -/
theorem tool_boundary_fault_handling (st : ServerState)
    (hk : st.is_key_valid = true) (hx : st.hl_exchange = true)
    (e coin address : String) (orderResp : Except String Json)
    (mo : MarketOrderInput) (lo : LimitOrderInput) (ci : CancelOrderInput) :
    get_order_book (.error e) coin =
      (Json.obj [("error", Json.str ("Failed to retrieve price data for " ++ coin ++ ": " ++ e))],
       [UpCall.allMids]) ∧
    get_open_orders (.error e) address =
      (Json.obj [("error", Json.str ("Failed to retrieve open orders: " ++ e))],
       [UpCall.openOrders address]) ∧
    get_all_perpetual_markets (.error e) =
      (Json.obj [("error", Json.str ("Failed to retrieve market list: " ++ e))],
       [UpCall.meta]) ∧
    (place_market_order st (.error e) orderResp mo).1 =
      Json.obj [("error", Json.str ("Failed to place order: " ++ e))] ∧
    (place_limit_order st (.error e) lo).1 =
      Json.obj [("error", Json.str ("Failed to place limit order: " ++ e))] ∧
    (cancel_all_orders st (.error e)).1 =
      Json.obj [("error", Json.str ("Failed to execute cancel_all: " ++ e))] ∧
    (cancel_order_by_id st (.error e) ci).1 =
      Json.obj [("error", Json.str ("Failed to cancel order " ++ toString ci.order_id ++ ": " ++ e))] ∧
    (get_user_state (.error e) address).1 = .error e ∧
    (get_mid_price (.error e) coin).1 = .error e := by
  refine ⟨?_, ?_, ?_, ?_, ?_, ?_, ?_, rfl, rfl⟩ <;>
    simp [get_order_book, get_open_orders, get_all_perpetual_markets,
      place_market_order, place_limit_order, cancel_all_orders,
      cancel_order_by_id, get_mid_price, hk, hx, Bind.bind, Except.bind]

/-- C4 (amended) witness. -/
theorem tool_boundary_fault_handling_witness :
    get_order_book (.error "boom") "BTC" =
      (Json.obj [("error", Json.str ("Failed to retrieve price data for " ++ "BTC" ++ ": " ++ "boom"))],
       [UpCall.allMids]) ∧
    get_open_orders (.error "boom") "0xA" =
      (Json.obj [("error", Json.str ("Failed to retrieve open orders: " ++ "boom"))],
       [UpCall.openOrders "0xA"]) ∧
    get_all_perpetual_markets (.error "boom") =
      (Json.obj [("error", Json.str ("Failed to retrieve market list: " ++ "boom"))],
       [UpCall.meta]) ∧
    (place_market_order ⟨true, true⟩ (.error "boom") (.ok Json.null)
        ⟨"BTC", true, 1, false⟩).1 =
      Json.obj [("error", Json.str ("Failed to place order: " ++ "boom"))] ∧
    (place_limit_order ⟨true, true⟩ (.error "boom")
        ⟨"BTC", true, 1, 10, "Gtc", false⟩).1 =
      Json.obj [("error", Json.str ("Failed to place limit order: " ++ "boom"))] ∧
    (cancel_all_orders ⟨true, true⟩ (.error "boom")).1 =
      Json.obj [("error", Json.str ("Failed to execute cancel_all: " ++ "boom"))] ∧
    (cancel_order_by_id ⟨true, true⟩ (.error "boom") ⟨"BTC", 5⟩).1 =
      Json.obj [("error", Json.str ("Failed to cancel order " ++ toString (5 : Int) ++ ": " ++ "boom"))] ∧
    (get_user_state (.error "boom") "0xA").1 = .error "boom" ∧
    (get_mid_price (.error "boom") "BTC").1 = .error "boom" :=
  tool_boundary_fault_handling ⟨true, true⟩ rfl rfl "boom" "BTC" "0xA"
    (.ok Json.null) ⟨"BTC", true, 1, false⟩ ⟨"BTC", true, 1, 10, "Gtc", false⟩
    ⟨"BTC", 5⟩

/-- A lookup in the empty dict finds nothing. -/
theorem dictGet_nil (k : String) : dictGet [] k = none := rfl

/-- C10 counterexample: with a valid identity and a positive mid price, an
upstream order reply whose statuses list is present but empty makes the
`[0]` subscript raise `IndexError`; `place_market_order` returns
`{error: "Failed to place order: list index out of range"}`, a payload
with no `status` key at all, not a status=success result. -/
theorem empty_statuses_not_success :
    (place_market_order ⟨true, true⟩ (.ok (Json.obj [("BTC", Json.num 100)]))
      (.ok (Json.obj [("response", Json.obj [("data", Json.obj
        [("statuses", Json.arr [])])])]))
      ⟨"BTC", true, 1, false⟩).1 =
      Json.obj [("error", Json.str "Failed to place order: list index out of range")] ∧
    dictGet [("error", Json.str "Failed to place order: list index out of range")]
      "status" = none :=
  ⟨rfl, rfl⟩

/-- C10 (amended): for the three order/cancel tools that index the status
list, a reply lacking the `response`/`data`/`statuses` structure entirely
falls back to one empty status entry and is reported as status=success;
but a reply whose statuses list is present and empty raises `IndexError`,
which the handler catches and returns as an `{error: ...}` payload, not
success. -/
theorem statuses_fallback_and_empty_list (st : ServerState)
    (hk : st.is_key_valid = true) (hx : st.hl_exchange = true)
    (allMids : Except String Json) (mo : MarketOrderInput)
    (lo : LimitOrderInput) (ci : CancelOrderInput) (mid : ℚ)
    (hmid : (get_mid_price allMids mo.coin).1 = .ok mid) (hpos : 0 < mid)
    (lM : List (String × Json)) (hM : dictGet lM "response" = none)
    (resultE respE dataE : Json)
    (hrE : pyGet resultE "response" (Json.obj []) = .ok respE)
    (hdE : pyGet respE "data" (Json.obj []) = .ok dataE)
    (hsE : pyGet dataE "statuses" (Json.arr [Json.obj []]) = .ok (Json.arr [])) :
    (place_market_order st allMids (.ok (Json.obj lM)) mo).1 =
      Json.obj [("status", Json.str "success"),
        ("message", Json.str ("Market order placed on " ++ mo.coin ++ ".")),
        ("side", Json.str (if mo.is_buy then "BUY" else "SELL")),
        ("size", Json.num mo.size), ("tx_hash", Json.null)] ∧
    (place_limit_order st (.ok (Json.obj lM)) lo).1 =
      Json.obj [("status", Json.str "success"),
        ("message", Json.str ("Limit order placed for " ++ pyStr lo.size ++ " " ++
          lo.coin ++ " at " ++ pyStr lo.limit_price ++ " with TIF: " ++
          lo.time_in_force ++ ".")),
        ("side", Json.str (if lo.is_buy then "BUY" else "SELL")),
        ("order_id", Json.null), ("tx_hash", Json.null)] ∧
    (cancel_order_by_id st (.ok (Json.obj lM)) ci).1 =
      Json.obj [("status", Json.str "success"),
        ("message", Json.str ("Cancellation request submitted for Order ID " ++
          toString ci.order_id ++ " on " ++ ci.coin ++ ".")),
        ("order_id", Json.num (ci.order_id : ℚ)), ("tx_hash", Json.null)] ∧
    (place_market_order st allMids (.ok resultE) mo).1 =
      Json.obj [("error", Json.str "Failed to place order: list index out of range")] ∧
    (place_limit_order st (.ok resultE) lo).1 =
      Json.obj [("error", Json.str "Failed to place limit order: list index out of range")] ∧
    (cancel_order_by_id st (.ok resultE) ci).1 =
      Json.obj [("error", Json.str ("Failed to cancel order " ++
        toString ci.order_id ++ ": " ++ "list index out of range"))] := by
  have hgM : pyGet (Json.obj lM) "response" (Json.obj []) = .ok (Json.obj []) := by
    simp [pyGet, hM]
  have hfsM : firstStatus (Json.obj lM) = .ok (Json.obj []) := by
    unfold firstStatus
    rw [hgM]
    simp [Bind.bind, Except.bind, pyGet, dictGet, pyIndex0]
  have hrespE : ∃ rl, respE = Json.obj rl := by
    cases respE with
    | obj rl => exact ⟨rl, rfl⟩
    | _ => simp [pyGet] at hdE
  obtain ⟨rl, hrl⟩ := hrespE
  subst hrl
  have hfsE : firstStatus resultE = .error "list index out of range" := by
    unfold firstStatus
    rw [hrE]
    simp only [Bind.bind, Except.bind]
    rw [hdE]
    simp only []
    rw [hsE]
    rfl
  have hhashE : pyGet (Json.obj rl) "hash" Json.null =
      .ok ((dictGet rl "hash").getD Json.null) := rfl
  refine ⟨?_, ?_, ?_, ?_, ?_, ?_⟩
  · unfold place_market_order pmo_interpret
    rw [hk, hx, hmid]
    simp [Bind.bind, Except.bind, pure, Except.pure,
      if_neg (not_le.mpr hpos), hfsM, hgM, getErrorField, pyGet, hM,
      dictGet_nil]
  · unfold place_limit_order plo_interpret
    rw [hk, hx]
    simp [Bind.bind, Except.bind, pure, Except.pure, hfsM, hgM,
      getErrorField, pyGet, hM, dictGet_nil]
  · unfold cancel_order_by_id cobi_interpret
    rw [hk, hx]
    simp [Bind.bind, Except.bind, pure, Except.pure, hfsM, hgM,
      getErrorField, pyGet, hM, dictGet_nil]
  · unfold place_market_order pmo_interpret
    rw [hk, hx, hmid]
    simp [Bind.bind, Except.bind, pure, Except.pure,
      if_neg (not_le.mpr hpos), hfsE]
  · unfold place_limit_order plo_interpret
    rw [hk, hx]
    simp [Bind.bind, Except.bind, pure, Except.pure, hfsE]
  · unfold cancel_order_by_id cobi_interpret
    rw [hk, hx]
    simp [Bind.bind, Except.bind, pure, Except.pure, hrE, hhashE, hfsE]

/-- C10 (amended) witness. -/
theorem statuses_fallback_and_empty_list_witness :
    (place_market_order ⟨true, true⟩ (.ok (Json.obj [("BTC", Json.num 100)]))
      (.ok (Json.obj [])) ⟨"BTC", true, 1, false⟩).1 =
      Json.obj [("status", Json.str "success"),
        ("message", Json.str ("Market order placed on " ++ "BTC" ++ ".")),
        ("side", Json.str (if true then "BUY" else "SELL")),
        ("size", Json.num 1), ("tx_hash", Json.null)] ∧
    (place_limit_order ⟨true, true⟩ (.ok (Json.obj []))
      ⟨"BTC", true, 1, 10, "Gtc", false⟩).1 =
      Json.obj [("status", Json.str "success"),
        ("message", Json.str ("Limit order placed for " ++ pyStr 1 ++ " " ++
          "BTC" ++ " at " ++ pyStr 10 ++ " with TIF: " ++ "Gtc" ++ ".")),
        ("side", Json.str (if true then "BUY" else "SELL")),
        ("order_id", Json.null), ("tx_hash", Json.null)] ∧
    (cancel_order_by_id ⟨true, true⟩ (.ok (Json.obj [])) ⟨"BTC", 5⟩).1 =
      Json.obj [("status", Json.str "success"),
        ("message", Json.str ("Cancellation request submitted for Order ID " ++
          toString (5 : Int) ++ " on " ++ "BTC" ++ ".")),
        ("order_id", Json.num ((5 : Int) : ℚ)), ("tx_hash", Json.null)] ∧
    (place_market_order ⟨true, true⟩ (.ok (Json.obj [("BTC", Json.num 100)]))
      (.ok (Json.obj [("response", Json.obj [("data", Json.obj
        [("statuses", Json.arr [])])])])) ⟨"BTC", true, 1, false⟩).1 =
      Json.obj [("error", Json.str "Failed to place order: list index out of range")] ∧
    (place_limit_order ⟨true, true⟩ (.ok (Json.obj [("response", Json.obj
        [("data", Json.obj [("statuses", Json.arr [])])])]))
      ⟨"BTC", true, 1, 10, "Gtc", false⟩).1 =
      Json.obj [("error", Json.str "Failed to place limit order: list index out of range")] ∧
    (cancel_order_by_id ⟨true, true⟩ (.ok (Json.obj [("response", Json.obj
        [("data", Json.obj [("statuses", Json.arr [])])])])) ⟨"BTC", 5⟩).1 =
      Json.obj [("error", Json.str ("Failed to cancel order " ++
        toString (5 : Int) ++ ": " ++ "list index out of range"))] :=
  statuses_fallback_and_empty_list ⟨true, true⟩ rfl rfl
    (.ok (Json.obj [("BTC", Json.num 100)])) ⟨"BTC", true, 1, false⟩
    ⟨"BTC", true, 1, 10, "Gtc", false⟩ ⟨"BTC", 5⟩ 100 rfl (by decide)
    [] rfl
    (Json.obj [("response", Json.obj [("data", Json.obj
      [("statuses", Json.arr [])])])])
    (Json.obj [("data", Json.obj [("statuses", Json.arr [])])])
    (Json.obj [("statuses", Json.arr [])]) rfl rfl rfl

end HL
